import Mathlib

/-!
# Verification of the meet-sync pipeline (`scripts/sync-meets.js`)

A shallow embedding of the normalization/sync pipeline: address parsing,
date-range parsing, state/timezone lookup, record transformation, the
fetch wrapper, the exponential-backoff retry loop, and the per-record
existence-check-then-insert sync loop.

JavaScript strings are modelled as Lean `String`s processed through their
character lists.  The handful of regex operations used by the source
(`/,\s*,/g` global replace, `/\\\//g` global replace, `split(sep)`,
`/^\d/` test, `/Suite|Unit|Apt|#/i` test) are implemented directly as
left-to-right scans with JavaScript's semantics: a global replace
continues scanning after the replaced text (it does not rescan the
replacement), and failed match positions advance by one character.
All scans take an explicit fuel argument (always called with the length
of the scanned list, which a scan consuming at least one character per
step can never exhaust) so that every definition is structurally
recursive and computes by `decide` / `rfl`.

JavaScript value quirks that the source relies on are modelled
explicitly: out-of-bounds indexing yields `undefined`, which a template
literal renders as the text "undefined"; `x || y` and truthiness tests
treat `undefined`, `null` and the empty string as falsy; property access
on an object literal reads the literal's own keys first and then the
inherited `Object.prototype` members (`constructor`, `toString`, ... —
truthy non-string values), and is `undefined` only past both.
-/

namespace SyncMeets

/-- The character class of JavaScript's regex `\s` (ECMA-262 WhiteSpace
and LineTerminator code points). -/
def isJsWs (c : Char) : Bool :=
  c = ' ' || c = '\t' || c = '\n' || c = '\r' ||
  c = Char.ofNat 0x0b || c = Char.ofNat 0x0c || c = Char.ofNat 0xa0 ||
  c = Char.ofNat 0x1680 ||
  (0x2000 ≤ c.toNat && c.toNat ≤ 0x200a) ||
  c = Char.ofNat 0x2028 || c = Char.ofNat 0x2029 ||
  c = Char.ofNat 0x202f || c = Char.ofNat 0x205f ||
  c = Char.ofNat 0x3000 || c = Char.ofNat 0xfeff

/-- One left-to-right pass of `address.replace(/,\s*,/g, ',')`: a comma,
a maximal run of whitespace, and a comma collapse to a single comma, and
scanning resumes after the matched text.  Fuel is the number of scan
steps; each step consumes at least one character, so fuel = list length
never runs out. -/
def collapseGo : Nat → List Char → List Char
  | 0, l => l
  | _ + 1, [] => []
  | fuel + 1, c :: rest =>
    if c = ',' then
      match rest.dropWhile isJsWs with
      | ',' :: rest2 => ',' :: collapseGo fuel rest2
      | _ => c :: collapseGo fuel rest
    else c :: collapseGo fuel rest

/-- String-level wrapper for `address.replace(/,\s*,/g, ',')`. -/
def collapseCommas (s : String) : String :=
  String.mk (collapseGo s.data.length s.data)

/-- JavaScript `String.prototype.split` with a non-empty literal
separator: cut at the leftmost occurrence of `sep`, continue after it.
Fuel as in `collapseGo`. -/
def splitGo (sep : List Char) : Nat → List Char → List (List Char)
  | 0, l => [l]
  | _ + 1, [] => [[]]
  | fuel + 1, c :: rest =>
    if sep.isPrefixOf (c :: rest) then
      [] :: splitGo sep fuel ((c :: rest).drop sep.length)
    else
      match splitGo sep fuel rest with
      | [] => [[c]]
      | t :: ts => (c :: t) :: ts

/-- JavaScript `s.split(sep)` for a non-empty literal separator (the only way the
source uses `split`).  The empty-separator case is never used. -/
def jsSplitOn (s sep : String) : List String :=
  if sep.data.isEmpty then [s]
  else (splitGo sep.data s.data.length s.data).map String.mk

/-- Global literal replacement, JavaScript style: replace each
non-overlapping leftmost occurrence of `pat`, continuing after the
matched source text.  Fuel as in `collapseGo`. -/
def replaceGo (pat rep : List Char) : Nat → List Char → List Char
  | 0, l => l
  | _ + 1, [] => []
  | fuel + 1, c :: rest =>
    if pat.isPrefixOf (c :: rest) then
      rep ++ replaceGo pat rep fuel ((c :: rest).drop pat.length)
    else c :: replaceGo pat rep fuel rest

/-- JavaScript `s.replace(/pat/g, rep)` for a non-empty literal pattern. -/
def jsReplaceAll (s pat rep : String) : String :=
  if pat.data.isEmpty then s
  else String.mk (replaceGo pat.data rep.data s.data.length s.data)

/-- Substring test (used for the `/Suite|Unit|Apt|#/i` regex test):
`pat` occurs in `s` iff splitting on it yields more than one piece. -/
def strContains (s pat : String) : Bool :=
  (jsSplitOn s pat).length > 1

/-- Character-wise ASCII lowercasing (sufficient for the
case-insensitive match of the ASCII-only pattern below). -/
def asciiLower (s : String) : String :=
  String.mk (s.data.map Char.toLower)

/-- The test `parts[2].match(/Suite|Unit|Apt|#/i)` viewed as a Bool: one of the
alternatives occurs in the string, case-insensitively. -/
def unitDesignator (s : String) : Bool :=
  let low := asciiLower s
  strContains low "suite" || strContains low "unit" ||
  strContains low "apt" || strContains low "#"

/-- The test `parts[0].match(/^\d/)` viewed as a Bool: the first character is a
decimal digit. -/
def jsStartsWithDigit (s : String) : Bool :=
  match s.data with
  | [] => false
  | c :: _ => c.isDigit

/-- JavaScript indexing into an array of strings, rendered through a
template literal: an out-of-bounds access gives `undefined`, which the
template renders as "undefined". -/
def jsIdxStr (l : List String) (i : Nat) : String :=
  match l[i]? with
  | some s => s
  | none => "undefined"

/-! ## AddressParser (`parseAddress`) -/

structure ParsedAddress where
  venueName : String
  street : String
  city : String
  state : String
  zip : String
deriving DecidableEq, Repr

/-- Embedding of `parseAddress` (`scripts/sync-meets.js:24`).  For string inputs
none of the operations in the `try` block can throw, so the `catch`
branch is unreachable and the embedding is the `try` body.  Inside the
`parts.length >= 4` branch every index read by the source is in bounds,
so in-bounds `getD` stands for JavaScript indexing there. -/
def parseAddress (address : String) : ParsedAddress :=
  let address := collapseCommas address
  let parts := jsSplitOn address ", "
  if parts.length ≥ 4 then
    let zip := parts.getD (parts.length - 1) ""
    let state :=
      match parts.findIdx? (fun part => part = "United States of America") with
      | some stateIndex =>
        if stateIndex > 0 then parts.getD (stateIndex - 1) ""
        else parts.getD (parts.length - 2) ""
      | none => parts.getD (parts.length - 2) ""
    if ¬ jsStartsWithDigit (parts.getD 0 "") then
      let venueName := parts.getD 0 ""
      if parts.length ≥ 6 then
        let street := parts.getD 1 ""
        if unitDesignator (parts.getD 2 "") then
          ⟨venueName, street ++ ", " ++ parts.getD 2 "", parts.getD 3 "", state, zip⟩
        else
          ⟨venueName, street, parts.getD 2 "", state, zip⟩
      else
        ⟨venueName, parts.getD 1 "", parts.getD 2 "", state, zip⟩
    else
      ⟨"", parts.getD 0 "", parts.getD 1 "", state, zip⟩
  else
    ⟨"", address, "Unknown", "Unknown", "Unknown"⟩

/-! ## DateRangeParser (`parseDateRange`) -/

structure ParsedDateRange where
  startDate : Option String
  endDate : Option String
deriving DecidableEq, Repr

/-- Reassembly `` `${parts[2]}-${parts[0]}-${parts[1]}` `` of the
slash-separated components into year-month-day order. -/
def fmtDate (parts : List String) : String :=
  jsIdxStr parts 2 ++ "-" ++ jsIdxStr parts 0 ++ "-" ++ jsIdxStr parts 1

/-- Embedding of `parseDateRange` (`scripts/sync-meets.js:104`).  Here `split` never
returns an empty array, and for string inputs nothing in the `try` block
can throw, so the `catch` branch (returning `{null, null}`) is
unreachable; the `[]` case below stands for it.  `dates[1]` is tested
for truthiness, so a second token that is the empty string also falls
back to `startParts`. -/
def parseDateRange (dateRange : String) : ParsedDateRange :=
  let cleanDateRange := jsReplaceAll dateRange "\\/" "/"
  match jsSplitOn cleanDateRange " - " with
  | [] => ⟨none, none⟩
  | d0 :: rest =>
    let startParts := jsSplitOn d0 "/"
    let endParts :=
      match rest with
      | [] => startParts
      | d1 :: _ => if d1 = "" then startParts else jsSplitOn d1 "/"
    ⟨some (fmtDate startParts), some (fmtDate endParts)⟩

/-! ## TimeZoneResolver (`mapTimeZone`) and StateAbbreviator
(`getStateAbbreviation`)

The object literals are modelled as association lists, but the property
access `map[key]` follows JavaScript's full lookup: the literal's own
keys first, and past them the inherited `Object.prototype` members —
`map['constructor']`, `map['toString']`, `map['__proto__']`, ... are
truthy functions/objects, not `undefined`.  So `map[key] || dflt` is:
the stored string for an own key (every table value is non-empty, hence
truthy); the inherited member for an `Object.prototype` key (truthy, so
the fallback is bypassed); and `dflt` only for all other keys.  The
result type `JsVal` separates proper strings from those inherited
non-string values, recording for the latter which member was read. -/

/-- Own-property names of `Object.prototype`, inherited by every object
literal and all truthy when read. -/
def objectProtoKeys : List String :=
  ["constructor", "toString", "toLocaleString", "valueOf",
   "hasOwnProperty", "isPrototypeOf", "propertyIsEnumerable",
   "__defineGetter__", "__defineSetter__", "__lookupGetter__",
   "__lookupSetter__", "__proto__"]

/-- Value produced by a table lookup: a proper string, or an inherited
`Object.prototype` member (a function or object — truthy but not a
string), recorded by the key that was read. -/
inductive JsVal where
  | str (s : String)
  | protoMember (key : String)
deriving DecidableEq, Repr

def timeZoneMap : List (String × String) :=
  [("Alabama", "America/Chicago"), ("Alaska", "America/Anchorage"),
   ("Arizona", "America/Phoenix"), ("Arkansas", "America/Chicago"),
   ("California", "America/Los_Angeles"), ("Colorado", "America/Denver"),
   ("Connecticut", "America/New_York"), ("Delaware", "America/New_York"),
   ("Florida", "America/New_York"), ("Georgia", "America/New_York"),
   ("Hawaii", "Pacific/Honolulu"), ("Idaho", "America/Denver"),
   ("Illinois", "America/Chicago"), ("Indiana", "America/New_York"),
   ("Iowa", "America/Chicago"), ("Kansas", "America/Chicago"),
   ("Kentucky", "America/New_York"), ("Louisiana", "America/Chicago"),
   ("Maine", "America/New_York"), ("Maryland", "America/New_York"),
   ("Massachusetts", "America/New_York"), ("Michigan", "America/New_York"),
   ("Minnesota", "America/Chicago"), ("Mississippi", "America/Chicago"),
   ("Missouri", "America/Chicago"), ("Montana", "America/Denver"),
   ("Nebraska", "America/Chicago"), ("Nevada", "America/Los_Angeles"),
   ("New Hampshire", "America/New_York"), ("New Jersey", "America/New_York"),
   ("New Mexico", "America/Denver"), ("New York", "America/New_York"),
   ("North Carolina", "America/New_York"), ("North Dakota", "America/Chicago"),
   ("Ohio", "America/New_York"), ("Oklahoma", "America/Chicago"),
   ("Oregon", "America/Los_Angeles"), ("Pennsylvania", "America/New_York"),
   ("Rhode Island", "America/New_York"), ("South Carolina", "America/New_York"),
   ("South Dakota", "America/Chicago"), ("Tennessee", "America/Chicago"),
   ("Texas", "America/Chicago"), ("Utah", "America/Denver"),
   ("Vermont", "America/New_York"), ("Virginia", "America/New_York"),
   ("Washington", "America/Los_Angeles"), ("West Virginia", "America/New_York"),
   ("Wisconsin", "America/Chicago"), ("Wyoming", "America/Denver"),
   ("District of Columbia", "America/New_York")]

/-- Embedding of `mapTimeZone` (`scripts/sync-meets.js:130`):
`timeZoneMap[state] || 'America/New_York'`.  An own key yields its
stored (truthy) value; an inherited `Object.prototype` key yields that
truthy member, bypassing the Eastern fallback; only all other keys give
`undefined` and hence the fallback. -/
def mapTimeZone (state : String) : JsVal :=
  match timeZoneMap.lookup state with
  | some tz => .str tz
  | none =>
    if objectProtoKeys.contains state then .protoMember state
    else .str "America/New_York"

def stateMap : List (String × String) :=
  [("Alabama", "AL"), ("Alaska", "AK"), ("Arizona", "AZ"),
   ("Arkansas", "AR"), ("California", "CA"), ("Colorado", "CO"),
   ("Connecticut", "CT"), ("Delaware", "DE"), ("Florida", "FL"),
   ("Georgia", "GA"), ("Hawaii", "HI"), ("Idaho", "ID"),
   ("Illinois", "IL"), ("Indiana", "IN"), ("Iowa", "IA"),
   ("Kansas", "KS"), ("Kentucky", "KY"), ("Louisiana", "LA"),
   ("Maine", "ME"), ("Maryland", "MD"), ("Massachusetts", "MA"),
   ("Michigan", "MI"), ("Minnesota", "MN"), ("Mississippi", "MS"),
   ("Missouri", "MO"), ("Montana", "MT"), ("Nebraska", "NE"),
   ("Nevada", "NV"), ("New Hampshire", "NH"), ("New Jersey", "NJ"),
   ("New Mexico", "NM"), ("New York", "NY"), ("North Carolina", "NC"),
   ("North Dakota", "ND"), ("Ohio", "OH"), ("Oklahoma", "OK"),
   ("Oregon", "OR"), ("Pennsylvania", "PA"), ("Rhode Island", "RI"),
   ("South Carolina", "SC"), ("South Dakota", "SD"), ("Tennessee", "TN"),
   ("Texas", "TX"), ("Utah", "UT"), ("Vermont", "VT"),
   ("Virginia", "VA"), ("Washington", "WA"), ("West Virginia", "WV"),
   ("Wisconsin", "WI"), ("Wyoming", "WY"), ("District of Columbia", "DC")]

/-- Embedding of `getStateAbbreviation` (`scripts/sync-meets.js:194`):
`stateMap[stateName] || stateName`.  An own key yields its stored
(truthy) abbreviation; an inherited `Object.prototype` key yields that
truthy member instead of the name; only all other names read
`undefined` and are passed through unchanged (including the empty
string, which the falsy `undefined` hands back as-is). -/
def getStateAbbreviation (stateName : String) : JsVal :=
  match stateMap.lookup stateName with
  | some ab => .str ab
  | none =>
    if objectProtoKeys.contains stateName then .protoMember stateName
    else .str stateName

/-! ## RecordTransformer (`transformMeetsData`) -/

/-- One raw listing from the upstream `data` array: the fields the
pipeline reads (`id`, `name`, `address`, `subtitle`). -/
structure RawListing where
  id : Nat
  name : String
  address : String
  subtitle : String
deriving DecidableEq, Repr

/-- The object built by `transformMeetsData` for one listing, before the
date filter.  `start_date`/`end_date` are `Option` because
`parseDateRange` can return `null`s. -/
structure CanonMeet where
  name : String
  venue_name : String
  venue_street : String
  venue_city : String
  venue_state : JsVal
  venue_zip : String
  time_zone : JsVal
  start_date : Option String
  end_date : Option String
  status : String
  external_id : Nat
deriving DecidableEq, Repr

/-- JavaScript truthiness of a possibly-null string: `null`/`undefined`
and `""` are falsy. -/
def jsTruthyStr : Option String → Bool
  | none => false
  | some s => s ≠ ""

/-- The body of the `map` in `transformMeetsData`
(`scripts/sync-meets.js:288`).  `venueName || meet.name` falls back to
the listing name when the parsed venue name is the empty string. -/
def transformMeet (meet : RawListing) : CanonMeet :=
  let pa := parseAddress meet.address
  let pd := parseDateRange meet.subtitle
  let timeZone := mapTimeZone pa.state
  let stateAbbreviation := getStateAbbreviation pa.state
  let finalVenueName := if pa.venueName = "" then meet.name else pa.venueName
  { name := meet.name
    venue_name := finalVenueName
    venue_street := pa.street
    venue_city := pa.city
    venue_state := stateAbbreviation
    venue_zip := pa.zip
    time_zone := timeZone
    start_date := pd.startDate
    end_date := pd.endDate
    status := "upcoming"
    external_id := meet.id }

/-- Embedding of `transformMeetsData` (`scripts/sync-meets.js:287`): map, then
`filter(meet => meet.start_date && meet.end_date)`. -/
def transformMeetsData (meetsData : List RawListing) : List CanonMeet :=
  (meetsData.map transformMeet).filter
    (fun meet => jsTruthyStr meet.start_date && jsTruthyStr meet.end_date)

/-! ## Fetcher (`fetchMeets`) -/

/-- The shape of `response.data` for a 200 response: already-structured
JSON with a `data` array, a string body whose `JSON.parse` succeeds and
yields a `data` array, or a string body whose `JSON.parse` throws
(JSON decoding itself is not modelled; its outcome is part of the
response shape). -/
inductive RespBody where
  | obj (data : List RawListing)
  | strGood (data : List RawListing)
  | strBad
deriving DecidableEq, Repr

/-- Outcome of `axios.get(API_URL)`: the promise rejects (transport
error) or resolves with a status and a body. -/
inductive FetchOutcome where
  | transportError
  | response (status : Nat) (body : RespBody)
deriving DecidableEq, Repr

/-- The `try` body of `fetchMeets` (`scripts/sync-meets.js:255`): throw
on a rejected request or a non-200 status; on a string body whose parse
fails, log and return `[]` (the inner catch). -/
def fetchMeetsTryBody (o : FetchOutcome) : Except String (List RawListing) :=
  match o with
  | .transportError => .error "network error"
  | .response status body =>
    if status ≠ 200 then
      .error ("API request failed with status " ++ toString status)
    else
      match body with
      | .obj data => .ok data
      | .strGood data => .ok data
      | .strBad => .ok []

/-- Embedding of `fetchMeets`: the outer catch turns every failure of the `try` body
into a logged `[]` return, so the function as a whole never rejects. -/
def fetchMeets (o : FetchOutcome) : List RawListing :=
  match fetchMeetsTryBody o with
  | .ok data => data
  | .error _ => []

/-! ## RetryPolicy (`retry`) -/

/-- Observable behaviour of one `retry` run: the settled value of the
returned promise (`Except.ok none` is resolving with `undefined`,
`Except.error e` is rejecting with `e`), the number of invocations of
the wrapped operation, and the list of backoff sleeps in milliseconds,
in order. -/
structure RetryTrace (E A : Type) where
  result : Except E (Option A)
  calls : Nat
  delays : List Nat
deriving Repr

/-- The `while (retries < maxRetries)` loop of `retry`
(`scripts/sync-meets.js:358`), with the wrapped operation modelled as a
function of the invocation index (the value of `retries` at call time).
The fuel argument is maintained equal to `(maxRetries - retries).toNat`,
so `fuel = 0` is exactly the loop guard failing, and falling off the
loop resolves with `undefined`. -/
def retryGo (fn : Nat → Except E A) (maxRetries : Int) :
    Nat → Nat → RetryTrace E A
  | 0, _ => ⟨.ok none, 0, []⟩
  | fuel + 1, retries =>
    match fn retries with
    | .ok a => ⟨.ok (some a), 1, []⟩
    | .error e =>
      let retries' := retries + 1
      if (retries' : Int) ≥ maxRetries then ⟨.error e, 1, []⟩
      else
        let delay := 2 ^ retries' * 1000
        let r := retryGo fn maxRetries fuel retries'
        ⟨r.result, r.calls + 1, delay :: r.delays⟩

/-- Embedding of `retry(fn, maxRetries)` with `retries` starting at 0.  `maxRetries`
is an `Int` so that non-positive counts behave as in the source (the
loop body never runs). -/
def retry (fn : Nat → Except E A) (maxRetries : Int) : RetryTrace E A :=
  retryGo fn maxRetries maxRetries.toNat 0

/-! ## Syncer (`meetExists` and the loop of `syncMeets`) -/

/-- The persisted row: a `CanonMeet` with the transient `external_id`
stripped (`const { external_id, ...meetData } = meet`). -/
structure MeetRow where
  name : String
  venue_name : String
  venue_street : String
  venue_city : String
  venue_state : JsVal
  venue_zip : String
  time_zone : JsVal
  start_date : Option String
  end_date : Option String
  status : String
deriving DecidableEq, Repr

def stripExternalId (m : CanonMeet) : MeetRow :=
  ⟨m.name, m.venue_name, m.venue_street, m.venue_city, m.venue_state,
   m.venue_zip, m.time_zone, m.start_date, m.end_date, m.status⟩

/-- Embedding of `meetExists` (`scripts/sync-meets.js:325`): the store is modelled by
the list of persisted names, and `qf i` says whether the existence query
for the record at position `i` errors.  A query error is logged and
reported as `false` (treat as not found); a successful query reports
name membership. -/
def meetExists (qf : Nat → Bool) (store : List String) (i : Nat)
    (name : String) : Bool :=
  if qf i then false else store.contains name

/-- Aggregate outcome of the per-record loop of `syncMeets`: the two
counters, the rows submitted to insert (in order), the final store
contents, and the number of records processed. -/
structure SyncResult where
  insertCount : Nat
  skippedCount : Nat
  attempted : List MeetRow
  finalStore : List String
  processed : Nat
deriving DecidableEq, Repr

/-- The `for (const meet of transformedMeets)` loop of `syncMeets`
(`scripts/sync-meets.js:401`): existence check (query failure treated as
not found), skip on a hit, otherwise submit the stripped row; `insf i`
says whether that insert errors (logged, store unchanged, not counted)
or succeeds (store gains the name, counted). -/
def syncLoop (qf insf : Nat → Bool) :
    List String → Nat → List CanonMeet → SyncResult
  | store, _, [] => ⟨0, 0, [], store, 0⟩
  | store, i, meet :: rest =>
    if meetExists qf store i meet.name then
      let r := syncLoop qf insf store (i + 1) rest
      ⟨r.insertCount, r.skippedCount + 1, r.attempted, r.finalStore,
       r.processed + 1⟩
    else
      let row := stripExternalId meet
      if insf i then
        let r := syncLoop qf insf store (i + 1) rest
        ⟨r.insertCount, r.skippedCount, row :: r.attempted, r.finalStore,
         r.processed + 1⟩
      else
        let r := syncLoop qf insf (meet.name :: store) (i + 1) rest
        ⟨r.insertCount + 1, r.skippedCount, row :: r.attempted, r.finalStore,
         r.processed + 1⟩

/-- Top-level outcome of one `syncMeets` run: `fatal` is the outer catch
ending in `process.exit(1)`; `noData` is the early
`if (!meetsData || meetsData.length === 0) return`; `completed` is the
normal end with the loop's aggregate outcome. -/
inductive SyncOutcome where
  | fatal
  | noData
  | completed (r : SyncResult)
deriving DecidableEq, Repr

/-- Embedding of `syncMeets` (`scripts/sync-meets.js:380`): fetch through
`retry(() => fetchMeets())` — an operation that always resolves, since
`fetchMeets` catches its own failures — then transform and run the
per-record loop. -/
def syncMeets (o : FetchOutcome) (qf insf : Nat → Bool)
    (store : List String) : SyncOutcome :=
  let t := retry (fun _ => (Except.ok (fetchMeets o) : Except Unit _)) 3
  match t.result with
  | .error _ => .fatal
  | .ok none => .noData
  | .ok (some meetsData) =>
    if meetsData.length = 0 then .noData
    else .completed (syncLoop qf insf store 0 (transformMeetsData meetsData))

/-! ## Concrete scenario data used by the theorems below -/

/-- A failure oracle that never fails (every store query / insert
succeeds). -/
def noFailure : Nat → Bool := fun _ => false

/-- A failure oracle under which every store query fails. -/
def allQueriesFail : Nat → Bool := fun _ => true

/-- A failure oracle under which every insert fails. -/
def allInsertsFail : Nat → Bool := fun _ => true

/-- A fetch outcome is a genuine request failure when the request is
rejected in transport or resolves with a non-200 status. -/
def genuineFailure : FetchOutcome → Bool
  | .transportError => true
  | .response status _ => status != 200

/-- An operation that fails on its first two invocations and succeeds on
the third. -/
def opFailTwice : Nat → Except String Nat :=
  fun k => if k < 2 then .error ("fail" ++ toString k) else .ok 42

/-- A listing whose address follows the first documented shape and whose
subtitle is a valid escaped date range. -/
def pleasantonListing : RawListing :=
  ⟨7, "Meet A",
   "7051 Commerce Circle, Pleasanton, California, United States of America, 94588",
   "06\\/08\\/2025 - 06\\/08\\/2025"⟩

/-- A listing whose address collapses to `"a, b, c, , z"` (the global
`/,\s*,/g` replace resumes scanning after each replacement, so this
doubled-delimiter pattern survives one pass), leaving an empty parsed
state. -/
def emptyStateListing : RawListing :=
  ⟨1, "Meet X", "a, b, c,, ,, z", "06/08/2025"⟩

/-- Projection of a `SyncOutcome` to its loop result (defaulting for the
non-`completed` outcomes). -/
def outcomeResult : SyncOutcome → SyncResult
  | .completed r => r
  | _ => ⟨0, 0, [], [], 0⟩

/-- A listing whose parsed state is `"constructor"`, a key at which the
state and timezone object literals read the truthy inherited
`Object.prototype.constructor` instead of their own data. -/
def protoStateListing : RawListing :=
  ⟨2, "Meet Y",
   "1 Main St, Springfield, constructor, United States of America, 12345",
   "06/08/2025"⟩

/-- First run of the C8 counterexample scenario: all existence queries
succeed, but the single insert fails, so nothing is persisted. -/
def c8FirstRun : SyncResult :=
  outcomeResult (syncMeets (.response 200 (.obj [pleasantonListing]))
    noFailure allInsertsFail [])

/-- Second run of the C8 counterexample scenario against the first
run's final store, now with inserts succeeding: the record is still
absent, so it is inserted, not skipped. -/
def c8SecondRun : SyncResult :=
  outcomeResult (syncMeets (.response 200 (.obj [pleasantonListing]))
    noFailure noFailure c8FirstRun.finalStore)

/-! ## Helper lemmas -/

/-- The `split` scan never returns an empty array. -/
theorem splitGo_ne_nil (sep : List Char) (fuel : Nat) (l : List Char) :
    splitGo sep fuel l ≠ [] := by
  match fuel, l with
  | 0, l => simp [splitGo]
  | _ + 1, [] => simp [splitGo]
  | fuel + 1, c :: rest =>
    simp only [splitGo]
    split
    · simp
    · split <;> simp

/-- JavaScript `s.split(sep)` never returns an empty list. -/
theorem jsSplitOn_ne_nil (s sep : String) : jsSplitOn s sep ≠ [] := by
  unfold jsSplitOn
  split
  · simp
  · intro h
    exact splitGo_ne_nil sep.data s.data.length s.data (by simpa using h)

/-- A successful association-list lookup returns a value stored under
the looked-up key. -/
theorem lookup_mem {l : List (String × String)} {k v : String}
    (h : l.lookup k = some v) : (k, v) ∈ l := by
  induction l with
  | nil => simp [List.lookup] at h
  | cons p rest ih =>
    rcases p with ⟨a, b⟩
    rw [List.lookup_cons] at h
    rcases hka : (k == a) with _ | _
    · simp only [hka] at h
      exact List.mem_cons_of_mem _ (ih h)
    · simp only [hka] at h
      obtain rfl : b = v := by simpa using h
      obtain rfl : k = a := by simpa using hka
      exact List.mem_cons_self _ _

/-! ## C4 — AddressParser on the two documented example addresses -/

/-- C4: `parseAddress` on the Pleasanton address returns venueName `""`,
street `"7051 Commerce Circle"`, city `"Pleasanton"`, state
`"California"`, zip `"94588"`; and on the CrossFit Revamped address it
returns venueName `"CrossFit Revamped"`, street
`"9385 Washington Blvd., Suite B-C"`, city `"Laurel"`, state
`"Maryland"`. -/
theorem C4_address_examples :
    parseAddress "7051 Commerce Circle, Pleasanton, California, United States of America, 94588" =
      ⟨"", "7051 Commerce Circle", "Pleasanton", "California", "94588"⟩ ∧
    (parseAddress "CrossFit Revamped, 9385 Washington Blvd., Suite B-C, Laurel, Maryland, United States of America, 20723").venueName =
      "CrossFit Revamped" ∧
    (parseAddress "CrossFit Revamped, 9385 Washington Blvd., Suite B-C, Laurel, Maryland, United States of America, 20723").street =
      "9385 Washington Blvd., Suite B-C" ∧
    (parseAddress "CrossFit Revamped, 9385 Washington Blvd., Suite B-C, Laurel, Maryland, United States of America, 20723").city =
      "Laurel" ∧
    (parseAddress "CrossFit Revamped, 9385 Washington Blvd., Suite B-C, Laurel, Maryland, United States of America, 20723").state =
      "Maryland" := by
  decide

/-! ## C5 — DateRangeParser on the escaped example and single-date
inputs -/

/-- C5: `parseDateRange` on `"06\/08\/2025 - 06\/08\/2025"` (with
backslash-escaped slashes) returns start and end date `"2025-06-08"`;
and for every input whose unescaped form contains no `" - "` separator
(the split yields a single token), the returned start date equals the
returned end date. -/
theorem C5_date_range_examples :
    parseDateRange "06\\/08\\/2025 - 06\\/08\\/2025" =
      ⟨some "2025-06-08", some "2025-06-08"⟩ ∧
    ∀ s : String,
      (jsSplitOn (jsReplaceAll s "\\/" "/") " - ").length = 1 →
      (parseDateRange s).startDate = (parseDateRange s).endDate := by
  refine ⟨rfl, ?_⟩
  intro s h
  rcases hsp : jsSplitOn (jsReplaceAll s "\\/" "/") " - " with _ | ⟨d0, rest⟩
  · exact absurd hsp (jsSplitOn_ne_nil _ _)
  · rcases rest with _ | ⟨d1, rest'⟩
    · simp [parseDateRange, hsp]
    · rw [hsp] at h
      simp at h

/-- Witness for C5's quantified part, at the single-date input
`"06/08/2025"`. -/
theorem C5_date_range_examples_witness :
    (jsSplitOn (jsReplaceAll "06/08/2025" "\\/" "/") " - ").length = 1 ∧
    (parseDateRange "06/08/2025").startDate =
      (parseDateRange "06/08/2025").endDate :=
  ⟨rfl, C5_date_range_examples.2 "06/08/2025" rfl⟩

/-! ## C2 — DateRangeParser on malformed tokens

The claim says every malformed token (too few slash components, or
non-numeric components) yields `{startDate: null, endDate: null}`.  On
the code this is false: nothing in the `try` block throws for a string
input — a missing component is `undefined`, which the template literal
renders as the text "undefined", and non-numeric components are
reassembled as-is — so malformed tokens produce non-null garbage
strings and the catch branch is unreachable. -/

/-- C2 counterexample: the malformed inputs `"06/08"` (two components)
and `"aa/bb/cc"` (non-numeric components) both produce non-null date
strings, not `{null, null}`. -/
theorem C2_counterexample :
    parseDateRange "06/08" =
      ⟨some "undefined-06-08", some "undefined-06-08"⟩ ∧
    parseDateRange "aa/bb/cc" = ⟨some "cc-aa-bb", some "cc-aa-bb"⟩ ∧
    parseDateRange "06/08" ≠ ⟨none, none⟩ :=
  ⟨rfl, rfl, by decide⟩

/-- C2 amended: for every input string — malformed tokens included —
`parseDateRange` returns non-null start and end dates; missing
slash-components are rendered as the text "undefined" and non-numeric
components are passed through, so the `{null, null}` exception path is
never taken on a string input. -/
theorem C2_never_null (s : String) :
    (parseDateRange s).startDate ≠ none ∧ (parseDateRange s).endDate ≠ none := by
  rcases hsp : jsSplitOn (jsReplaceAll s "\\/" "/") " - " with _ | ⟨d0, rest⟩
  · exact absurd hsp (jsSplitOn_ne_nil _ _)
  · constructor <;> simp [parseDateRange, hsp]

/-! ## C10 — RetryPolicy with a non-positive maximum attempt count -/

/-- C10: `retry` with a non-positive maximum attempt count never invokes
the wrapped operation (zero calls, no backoff sleeps) and resolves
successfully with no value (`undefined`), rather than running the
operation once or rejecting. -/
theorem C10_retry_nonpositive (E A : Type) (fn : Nat → Except E A)
    (m : Int) (h : m ≤ 0) : retry fn m = ⟨.ok none, 0, []⟩ := by
  unfold retry
  rw [Int.toNat_of_nonpos h]
  rfl

/-- Witness for C10 at `maxRetries = 0`. -/
theorem C10_retry_nonpositive_witness :
    (0 : Int) ≤ 0 ∧
    retry (fun _ => (.error "boom" : Except String Nat)) 0 = ⟨.ok none, 0, []⟩ :=
  ⟨le_refl 0, C10_retry_nonpositive String Nat _ 0 (le_refl 0)⟩

/-! ## C3 — AddressParser degraded result for unparsable addresses

The claim says the degraded result carries street equal to the
**original** input string.  On the code this is false when the input
contains repeated delimiters: the function reassigns `address` to the
collapsed string before splitting, and the degraded branch returns that
collapsed string as the street. -/

/-- C3 counterexample: `"a,, b"` collapses to `"a, b"`, splits into 2
parts (fewer than 4), and the degraded result's street is the collapsed
string `"a, b"`, not the original input `"a,, b"`. -/
theorem C3_counterexample :
    (jsSplitOn (collapseCommas "a,, b") ", ").length < 4 ∧
    (parseAddress "a,, b").street = "a, b" ∧
    (parseAddress "a,, b").street ≠ "a,, b" := by
  decide

/-- C3 amended: `parseAddress` is a total function (it never raises),
and for every input splitting into fewer than 4 comma-space parts after
delimiter collapsing it returns the degraded record with venueName
empty, street equal to the input **after collapsing** (equal to the
original whenever no repeated delimiters were collapsed), and
city/state/zip all `"Unknown"`. -/
theorem C3_degraded_result (s : String)
    (h : (jsSplitOn (collapseCommas s) ", ").length < 4) :
    parseAddress s = ⟨"", collapseCommas s, "Unknown", "Unknown", "Unknown"⟩ := by
  unfold parseAddress
  rw [if_neg (by omega)]

/-- Witness for C3's amended statement at the input `"a,, b"`. -/
theorem C3_degraded_result_witness :
    (jsSplitOn (collapseCommas "a,, b") ", ").length < 4 ∧
    parseAddress "a,, b" = ⟨"", collapseCommas "a,, b", "Unknown", "Unknown", "Unknown"⟩ :=
  ⟨by decide, C3_degraded_result "a,, b" (by decide)⟩

/-! ## C7 — RetryPolicy backoff behaviour -/

/-- C7: with the default maximum attempt count of 3, an operation that
fails on its first two invocations and succeeds on the third yields the
third invocation's success result after 3 calls, with backoff sleeps of
`2^1 * 1000` ms and `2^2 * 1000` ms (the second delay double the first;
`2^attemptNumber` seconds with attemptNumber starting at 1); and an
operation that fails on all three attempts rejects with the last
failure after the same two backoff sleeps. -/
theorem C7_retry_backoff :
    retry opFailTwice 3 = ⟨.ok (some 42), 3, [2000, 2 * 2000]⟩ ∧
    ∀ (E A : Type) (op : Nat → Except E A) (e0 e1 e2 : E),
      op 0 = .error e0 → op 1 = .error e1 → op 2 = .error e2 →
      retry op 3 = ⟨.error e2, 3, [2 ^ 1 * 1000, 2 ^ 2 * 1000]⟩ := by
  refine ⟨rfl, ?_⟩
  intro E A op e0 e1 e2 h0 h1 h2
  simp [retry, retryGo, h0, h1, h2]

/-- Witness for C7's quantified part, at an operation failing on every
invocation with the invocation index as the error. -/
theorem C7_retry_backoff_witness :
    (fun k => (.error k : Except Nat Unit)) 0 = .error 0 ∧
    retry (fun k => (.error k : Except Nat Unit)) 3 =
      ⟨.error 2, 3, [2 ^ 1 * 1000, 2 ^ 2 * 1000]⟩ :=
  ⟨rfl, C7_retry_backoff.2 Nat Unit _ 0 1 2 rfl rfl rfl⟩

/-! ## C1 — genuine fetch failures and the RetryPolicy

The claim says a genuine request failure (transport error or non-2xx
status) is observed by the `retry` wrapper, retried with backoff, and
after exhausting retries propagates as a fatal failure.  On the code
this is false: `fetchMeets` catches **every** failure of its own `try`
body — including the throw for a non-200 status — logs it and returns
`[]`, so the operation handed to `retry` always resolves; `retry`
performs a single call with no backoff, and `syncMeets` takes the
"no data" early return and completes normally instead of fatally. -/

/-- C1 counterexample: on a transport error the Fetcher returns the
empty sequence, the RetryPolicy observes a success after exactly one
call with no backoff sleeps, and the run ends with the non-fatal
"no data" outcome. -/
theorem C1_counterexample :
    fetchMeets .transportError = [] ∧
    retry (fun _ => (Except.ok (fetchMeets .transportError) :
        Except Unit (List RawListing))) 3 = ⟨.ok (some []), 1, []⟩ ∧
    syncMeets .transportError noFailure noFailure [] = .noData :=
  ⟨rfl, rfl, rfl⟩

/-- C1 amended: for every genuine request failure (transport error or
non-200 status), `fetchMeets` swallows the failure and returns the
empty sequence; the `retry` wrapper therefore observes a success,
invoking the operation exactly once with no retries and no backoff
sleeps; and the run completes normally with the "no data" early return
rather than a fatal failure. -/
theorem C1_failure_swallowed (o : FetchOutcome)
    (h : genuineFailure o = true) :
    fetchMeets o = [] ∧
    retry (fun _ => (Except.ok (fetchMeets o) :
        Except Unit (List RawListing))) 3 = ⟨.ok (some []), 1, []⟩ ∧
    ∀ (qf insf : Nat → Bool) (store : List String),
      syncMeets o qf insf store = .noData := by
  have hf : fetchMeets o = [] := by
    cases o with
    | transportError => rfl
    | response status body =>
      have hs : status ≠ 200 := by simpa [genuineFailure] using h
      simp [fetchMeets, fetchMeetsTryBody, hs]
  refine ⟨hf, ?_, ?_⟩
  · simp only [hf]
    rfl
  · intro qf insf store
    simp [syncMeets, retry, retryGo, hf]

/-- Witness for C1's amended statement at a 500-status response. -/
theorem C1_failure_swallowed_witness :
    genuineFailure (.response 500 (.obj [pleasantonListing])) = true ∧
    (fetchMeets (.response 500 (.obj [pleasantonListing])) = [] ∧
     retry (fun _ => (Except.ok (fetchMeets (.response 500 (.obj [pleasantonListing]))) :
         Except Unit (List RawListing))) 3 = ⟨.ok (some []), 1, []⟩ ∧
     ∀ (qf insf : Nat → Bool) (store : List String),
       syncMeets (.response 500 (.obj [pleasantonListing])) qf insf store = .noData) :=
  ⟨rfl, C1_failure_swallowed _ rfl⟩

/-! ## C6 — shape of `venue_state` in transformed records

The claim says `venue_state` is a two-letter code or an unrecognized
parsed state name passed through unchanged, and is **never empty**.  On
the code this fails twice over.  The never-empty part is false: the
parsed state can be the empty string (an empty split part can survive
delimiter collapsing, because the global replace resumes scanning after
each replacement), and `stateMap[''] || ''` passes the empty string
through.  And the dichotomy itself is false: a parsed state equal to an
inherited `Object.prototype` member name (`"constructor"`, ...) makes
`stateMap[stateName]` read that truthy inherited function, which is
returned instead of the name — neither a two-letter code nor the state
passed through. -/

/-- C6 counterexample: the listing with address `"a, b, c,, ,, z"`
survives the date filter with `venue_state` the empty string, and the
listing with parsed state `"constructor"` survives it with
`venue_state` the inherited `Object.prototype.constructor`, not a state
string at all. -/
theorem C6_counterexample :
    (transformMeetsData [emptyStateListing]).map CanonMeet.venue_state =
      [.str ""] ∧
    (transformMeetsData [protoStateListing]).map CanonMeet.venue_state =
      [.protoMember "constructor"] := by
  decide

/-- Every abbreviation stored in the state table has two letters. -/
theorem stateMap_values_length :
    ∀ p ∈ stateMap, (Prod.snd p).length = 2 := by
  decide

/-- C6 amended: for every record produced by the transformer,
`venue_state` is one of: a two-letter abbreviation from the state
table; the inherited `Object.prototype` member read at the parsed state
when that state collides with such a member's name; or the parsed state
of its source listing passed through unchanged — and in the
pass-through case it can be the empty string. -/
theorem C6_venue_state_shape (l : List RawListing) (r : CanonMeet)
    (h : r ∈ transformMeetsData l) :
    (∃ ab, r.venue_state = .str ab ∧ ab.length = 2) ∨
    (∃ m ∈ l, (parseAddress m.address).state ∈ objectProtoKeys ∧
       r.venue_state = .protoMember (parseAddress m.address).state) ∨
    (∃ m ∈ l, r.venue_state = .str (parseAddress m.address).state) := by
  obtain ⟨m, hm, rfl⟩ : ∃ m ∈ l, transformMeet m = r := by
    have hmap := (List.mem_filter.mp h).1
    obtain ⟨m, hm, he⟩ := List.mem_map.mp hmap
    exact ⟨m, hm, he⟩
  have hvs : (transformMeet m).venue_state =
      getStateAbbreviation (parseAddress m.address).state := rfl
  rcases hlk : stateMap.lookup (parseAddress m.address).state with _ | ab
  · by_cases hpk : (parseAddress m.address).state ∈ objectProtoKeys
    · refine Or.inr (Or.inl ⟨m, hm, hpk, ?_⟩)
      rw [hvs]
      simp [getStateAbbreviation, hlk, hpk]
    · refine Or.inr (Or.inr ⟨m, hm, ?_⟩)
      rw [hvs]
      simp [getStateAbbreviation, hlk, hpk]
  · refine Or.inl ⟨ab, ?_, stateMap_values_length _ (lookup_mem hlk)⟩
    rw [hvs]
    simp [getStateAbbreviation, hlk]

/-- Witness for C6's amended statement at the Pleasanton listing, whose
record's `venue_state` is the two-letter code `"CA"`. -/
theorem C6_venue_state_shape_witness :
    transformMeet pleasantonListing ∈ transformMeetsData [pleasantonListing] ∧
    ((∃ ab, (transformMeet pleasantonListing).venue_state = .str ab ∧
        ab.length = 2) ∨
     (∃ m ∈ [pleasantonListing],
        (parseAddress m.address).state ∈ objectProtoKeys ∧
        (transformMeet pleasantonListing).venue_state =
          .protoMember (parseAddress m.address).state) ∨
     (∃ m ∈ [pleasantonListing],
        (transformMeet pleasantonListing).venue_state =
          .str (parseAddress m.address).state)) :=
  ⟨by decide, C6_venue_state_shape [pleasantonListing] _ (by decide)⟩

/-! ## Sync-loop lemmas shared by C8 and C9 -/

/-- The loop processes every record of its input: query or insert
failures never abort the batch. -/
theorem syncLoop_processed (qf insf : Nat → Bool) :
    ∀ (meets : List CanonMeet) (store : List String) (i : Nat),
      (syncLoop qf insf store i meets).processed = meets.length := by
  intro meets
  induction meets with
  | nil => intro store i; rfl
  | cons m rest ih =>
    intro store i
    cases hex : meetExists qf store i m.name with
    | true => simp [syncLoop, hex, ih]
    | false =>
      cases hins : insf i with
      | true => simp [syncLoop, hex, hins, ih]
      | false => simp [syncLoop, hex, hins, ih]

/-- With reliable queries and inserts, the loop only adds to the store:
every name present at the start is present at the end. -/
theorem syncLoop_store_mono :
    ∀ (meets : List CanonMeet) (store : List String) (i : Nat) (x : String),
      x ∈ store → x ∈ (syncLoop noFailure noFailure store i meets).finalStore := by
  intro meets
  induction meets with
  | nil => intro store i x hx; simpa [syncLoop] using hx
  | cons m rest ih =>
    intro store i x hx
    cases hex : meetExists noFailure store i m.name with
    | true =>
      simp only [syncLoop, hex]
      exact ih store (i + 1) x hx
    | false =>
      simp only [syncLoop, hex, noFailure, Bool.false_eq_true, if_false]
      exact ih (m.name :: store) (i + 1) x (List.mem_cons_of_mem _ hx)

/-- With reliable queries and inserts, after the loop every processed
record's name is in the final store (it was found, or it was
inserted). -/
theorem syncLoop_all_names :
    ∀ (meets : List CanonMeet) (store : List String) (i : Nat) (m : CanonMeet),
      m ∈ meets → m.name ∈ (syncLoop noFailure noFailure store i meets).finalStore := by
  intro meets
  induction meets with
  | nil => intro store i m hm; simp at hm
  | cons m0 rest ih =>
    intro store i m hm
    rcases List.mem_cons.mp hm with rfl | hm'
    · cases hex : meetExists noFailure store i m.name with
      | true =>
        have hmem : m.name ∈ store := List.elem_iff.mp hex
        simp only [syncLoop, hex]
        exact syncLoop_store_mono rest store (i + 1) m.name hmem
      | false =>
        simp only [syncLoop, hex, noFailure, Bool.false_eq_true, if_false]
        exact syncLoop_store_mono rest (m.name :: store) (i + 1) m.name
          (List.mem_cons_self _ _)
    · cases hex : meetExists noFailure store i m0.name with
      | true =>
        simp only [syncLoop, hex]
        exact ih store (i + 1) m hm'
      | false =>
        simp only [syncLoop, hex, noFailure, Bool.false_eq_true, if_false]
        exact ih (m0.name :: store) (i + 1) m hm'

/-- With reliable queries, a loop run in which every record's name is
already in the store inserts nothing and skips every record. -/
theorem syncLoop_all_present :
    ∀ (meets : List CanonMeet) (store : List String) (i : Nat),
      (∀ m ∈ meets, m.name ∈ store) →
      (syncLoop noFailure noFailure store i meets).insertCount = 0 ∧
      (syncLoop noFailure noFailure store i meets).skippedCount = meets.length := by
  intro meets
  induction meets with
  | nil => intro store i _; exact ⟨rfl, rfl⟩
  | cons m rest ih =>
    intro store i h
    have hmem : m.name ∈ store := h m (List.mem_cons_self _ _)
    have hex : meetExists noFailure store i m.name = true := List.elem_iff.mpr hmem
    have hrest := ih store (i + 1) (fun x hx => h x (List.mem_cons_of_mem _ hx))
    simp [syncLoop, hex, hrest.1, hrest.2]

/-! ## C9 — store-query failure is treated as not-found -/

/-- C9: when the existence query for a record fails, the record is not
skipped — its insert is still attempted, submitted with the transient
`external_id` stripped — the record contributes nothing to the skipped
count, and the batch is not aborted (every record of the input,
including all later ones, is processed). -/
theorem C9_query_failure_still_inserts (qf insf : Nat → Bool)
    (store : List String) (i : Nat) (meet : CanonMeet)
    (rest : List CanonMeet) (hq : qf i = true) :
    (syncLoop qf insf store i (meet :: rest)).attempted.head? =
      some (stripExternalId meet) ∧
    (syncLoop qf insf store i (meet :: rest)).skippedCount =
      (syncLoop qf insf (if insf i then store else meet.name :: store)
        (i + 1) rest).skippedCount ∧
    (syncLoop qf insf store i (meet :: rest)).processed = rest.length + 1 := by
  have hex : meetExists qf store i meet.name = false := by
    simp [meetExists, hq]
  cases hins : insf i with
  | true => simp [syncLoop, hex, hins, syncLoop_processed]
  | false => simp [syncLoop, hex, hins, syncLoop_processed]

/-- Witness for C9 at a one-record batch whose query fails. -/
theorem C9_query_failure_still_inserts_witness :
    allQueriesFail 0 = true ∧
    ((syncLoop allQueriesFail noFailure [] 0
        [transformMeet pleasantonListing]).attempted.head? =
      some (stripExternalId (transformMeet pleasantonListing)) ∧
     (syncLoop allQueriesFail noFailure [] 0
        [transformMeet pleasantonListing]).skippedCount = 0 ∧
     (syncLoop allQueriesFail noFailure [] 0
        [transformMeet pleasantonListing]).processed = 1) :=
  ⟨rfl, C9_query_failure_still_inserts allQueriesFail noFailure [] 0
    (transformMeet pleasantonListing) [] rfl⟩

/-! ## C8 — idempotence of a double run

The claim hypothesises only that the store's existence queries succeed.
On the code that is not enough: if an insert fails during the first run
(a spec-acknowledged `StoreWriteFailure`), the record is not persisted,
the second run's (successful) query finds it absent, and the second run
inserts it — so the second run performs an insert even though every
query succeeded.  With inserts also succeeding, idempotence holds. -/

/-- C8 counterexample: all existence queries of both runs succeed, but
the single insert of the first run fails; the second run then finds the
record absent and inserts it (one insert, zero skips), contradicting
"zero inserts on the second run". -/
theorem C8_counterexample :
    c8FirstRun.insertCount = 0 ∧ c8FirstRun.skippedCount = 0 ∧
    c8FirstRun.finalStore = [] ∧
    c8SecondRun.insertCount = 1 ∧ c8SecondRun.skippedCount = 0 := by
  decide

/-- C8 amended: running the full sync twice against an unchanged
upstream listing collection and a store whose existence queries **and
inserts** succeed performs zero inserts on the second run — every
record produced by the transform is found present by name and counted
as skipped. -/
theorem C8_idempotent_sync (listings : List RawListing)
    (store : List String) (h : listings ≠ []) :
    ∃ r1 r2 : SyncResult,
      syncMeets (.response 200 (.obj listings)) noFailure noFailure store =
        .completed r1 ∧
      syncMeets (.response 200 (.obj listings)) noFailure noFailure
        r1.finalStore = .completed r2 ∧
      r2.insertCount = 0 ∧
      r2.skippedCount = (transformMeetsData listings).length := by
  have hlen : ¬ listings.length = 0 := by
    simpa [List.length_eq_zero] using h
  have hsm : ∀ st : List String,
      syncMeets (.response 200 (.obj listings)) noFailure noFailure st =
      .completed (syncLoop noFailure noFailure st 0 (transformMeetsData listings)) := by
    intro st
    show (if listings.length = 0 then SyncOutcome.noData
          else .completed (syncLoop noFailure noFailure st 0
            (transformMeetsData listings))) = _
    rw [if_neg hlen]
  refine ⟨syncLoop noFailure noFailure store 0 (transformMeetsData listings),
          syncLoop noFailure noFailure
            (syncLoop noFailure noFailure store 0 (transformMeetsData listings)).finalStore
            0 (transformMeetsData listings),
          hsm store, hsm _, ?_, ?_⟩
  · exact (syncLoop_all_present (transformMeetsData listings) _ 0
      (fun m hm => syncLoop_all_names (transformMeetsData listings) store 0 m hm)).1
  · exact (syncLoop_all_present (transformMeetsData listings) _ 0
      (fun m hm => syncLoop_all_names (transformMeetsData listings) store 0 m hm)).2

/-- Witness for C8's amended statement at a one-listing collection and
an empty store. -/
theorem C8_idempotent_sync_witness :
    [pleasantonListing] ≠ [] ∧
    (∃ r1 r2 : SyncResult,
      syncMeets (.response 200 (.obj [pleasantonListing])) noFailure noFailure [] =
        .completed r1 ∧
      syncMeets (.response 200 (.obj [pleasantonListing])) noFailure noFailure
        r1.finalStore = .completed r2 ∧
      r2.insertCount = 0 ∧
      r2.skippedCount = (transformMeetsData [pleasantonListing]).length) :=
  ⟨by decide, C8_idempotent_sync [pleasantonListing] [] (by decide)⟩

end SyncMeets
